import Mathlib

/-!
A shallow embedding of the MSS SAML identity provider (`mslib/msidp/idp.py`)
together with proofs about its specification.  Python dictionaries are
modelled as functions `String → Option α`, Python `None` as `Option.none`,
exceptions that a handler catches as ordinary control flow, and exceptions
that escape a handler as an explicit `uncaught` outcome.  Calls into the
external pysaml2 codec (parsing, signature verification, metadata lookup,
binding application) are passed in as function parameters, following the
specification's external-interface boundary.
-/

/-- HTTP outcomes produced by the handlers, mirroring the `saml2.httputil`
response classes used by `idp.py` (`Response` 200, `Redirect` 302,
`BadRequest` 400, `Unauthorized` 401, `NotFound` 404, `ServiceError` 500)
plus `uncaught` for a Python exception that escapes the handler to the
WSGI transport layer. -/
inductive Outcome where
  | response (body : String)
  | redirect (location : String)
  | badRequest (reason : String)
  | unauthorized (reason : String)
  | notFound (info : String)
  | serviceError (reason : String)
  | uncaught (exc : String)
deriving DecidableEq, Repr

/-- The HTTP status line class of each outcome, per `saml2.httputil`
(an exception escaping to the WSGI server is also rendered as a 500). -/
def Outcome.statusCode : Outcome → Nat
  | .response _ => 200
  | .redirect _ => 302
  | .badRequest _ => 400
  | .unauthorized _ => 401
  | .notFound _ => 404
  | .serviceError _ => 500
  | .uncaught _ => 500

/-- A Python `dict` keyed by strings, as a total function into `Option`. -/
abbrev StrMap (α : Type) : Type := String → Option α

def StrMap.empty {α : Type} : StrMap α := fun _ => none

/-- `d[k] = v` on a Python dict: replaces any previous binding of `k`. -/
def StrMap.insert {α : Type} (m : StrMap α) (k : String) (v : α) : StrMap α :=
  fun k' => if k' = k then some v else m k'

/-- `del d[k]` on a Python dict. -/
def StrMap.erase {α : Type} (m : StrMap α) (k : String) : StrMap α :=
  fun k' => if k' = k then none else m k'

/-- The Session Cache (`class Cache` in `idp.py`): a bidirectional
mapping between local user identifiers and ephemeral session (uid)
identifiers. -/
structure Cache where
  user2uid : StrMap String
  uid2user : StrMap String

/-- The Session Cache registration performed by `do_verify` on a successful
credential check: `IDP.cache.uid2user[uid] = user; IDP.cache.user2uid[user] = uid`
where `uid` is the freshly minted `rndstr(24)` session identifier. -/
def do_verify_register (c : Cache) (user uid : String) : Cache :=
  { user2uid := c.user2uid.insert user uid,
    uid2user := c.uid2user.insert uid user }

/-- The Session Cache removal performed by `SLO.do` for the local
identifier `lid` resolved from the logout request's name identifier:
`if lid in user2uid: uid = user2uid[lid]; if uid in uid2user: del uid2user[uid]; del user2uid[lid]`.
`lid` is `Option` because `find_local_id` can return `None`, which is
never a key of `user2uid`. -/
def slo_cache_remove (c : Cache) (lid : Option String) : Cache :=
  match lid with
  | none => c
  | some l =>
    match c.user2uid l with
    | none => c
    | some uid =>
      { uid2user := if (c.uid2user uid).isSome then c.uid2user.erase uid else c.uid2user,
        user2uid := c.user2uid.erase l }

/-- Claim C4: for every user `u`, after the Session Cache registration
`create(u) = s` (the `do_verify` insertion of a fresh uid `s`),
`lookup(s)` (`uid2user[s]`) returns `u` and `lookupByUser(u)`
(`user2uid[u]`) returns `s`; and after `destroy(u)` (the `SLO.do`
removal keyed by `u`), both directions return NotFound (`none`). -/
theorem session_cache_create_lookup_destroy (c : Cache) (u s : String) :
    (do_verify_register c u s).uid2user s = some u ∧
    (do_verify_register c u s).user2uid u = some s ∧
    (slo_cache_remove (do_verify_register c u s) (some u)).uid2user s = none ∧
    (slo_cache_remove (do_verify_register c u s) (some u)).user2uid u = none := by
  refine ⟨?_, ?_, ?_, ?_⟩ <;>
    simp [do_verify_register, slo_cache_remove, StrMap.insert, StrMap.erase]

/-- Claim C10: if the registration runs a second time for a user who
already has a live session (a second login), the fresh session
identifier `s₂` becomes the user's current mapping, but the old
identifier `s₁` still resolves to the same user in `uid2user`; after the
SLO removal only the current mapping `s₂` is deleted, so the stale
forward entry `s₁ ↦ u` survives, and two distinct session identifiers
simultaneously resolve to the same user. -/
theorem session_cache_second_login_stale_entry (c : Cache) (u s₁ s₂ : String)
    (h : s₁ ≠ s₂) :
    ((do_verify_register (do_verify_register c u s₁) u s₂).uid2user s₁ = some u) ∧
    ((do_verify_register (do_verify_register c u s₁) u s₂).uid2user s₂ = some u) ∧
    ((do_verify_register (do_verify_register c u s₁) u s₂).user2uid u = some s₂) ∧
    ((slo_cache_remove (do_verify_register (do_verify_register c u s₁) u s₂) (some u)).uid2user s₁
       = some u) ∧
    ((slo_cache_remove (do_verify_register (do_verify_register c u s₁) u s₂) (some u)).uid2user s₂
       = none) ∧
    ((slo_cache_remove (do_verify_register (do_verify_register c u s₁) u s₂) (some u)).user2uid u
       = none) := by
  refine ⟨?_, ?_, ?_, ?_, ?_, ?_⟩ <;>
    simp [do_verify_register, slo_cache_remove, StrMap.insert, StrMap.erase, h]

/-- Witness for C10 at concrete inputs: user "alice" logging in twice
with distinct session identifiers "s1" and "s2". -/
theorem session_cache_second_login_stale_entry_witness :
    ((do_verify_register (do_verify_register ⟨StrMap.empty, StrMap.empty⟩ "alice" "s1")
        "alice" "s2").uid2user "s1" = some "alice") ∧
    ((do_verify_register (do_verify_register ⟨StrMap.empty, StrMap.empty⟩ "alice" "s1")
        "alice" "s2").uid2user "s2" = some "alice") ∧
    ((do_verify_register (do_verify_register ⟨StrMap.empty, StrMap.empty⟩ "alice" "s1")
        "alice" "s2").user2uid "alice" = some "s2") ∧
    ((slo_cache_remove (do_verify_register (do_verify_register ⟨StrMap.empty, StrMap.empty⟩
        "alice" "s1") "alice" "s2") (some "alice")).uid2user "s1" = some "alice") ∧
    ((slo_cache_remove (do_verify_register (do_verify_register ⟨StrMap.empty, StrMap.empty⟩
        "alice" "s1") "alice" "s2") (some "alice")).uid2user "s2" = none) ∧
    ((slo_cache_remove (do_verify_register (do_verify_register ⟨StrMap.empty, StrMap.empty⟩
        "alice" "s1") "alice" "s2") (some "alice")).user2uid "alice" = none) :=
  session_cache_second_login_stale_entry ⟨StrMap.empty, StrMap.empty⟩ "alice" "s1" "s2"
    (by decide)

/-!
Base64, as used by `set_cookie` / `info_from_cookie` / `SSO.ecp` through
`base64.b64encode` / `base64.b64decode`.  Bytes are `Nat` values below 256.
The decoder is specified on well-formed padded input; any other input
yields `none`, which corresponds to `binascii.Error` in Python 3.
-/

def b64Alphabet : List Char :=
  "ABCDEFGHIJKLMNOPQRSTUVWXYZabcdefghijklmnopqrstuvwxyz0123456789+/".data

def b64EncChar (n : Nat) : Char := b64Alphabet.getD n '?'

def b64DecChar (c : Char) : Option Nat := b64Alphabet.findIdx? (· == c)

theorem b64DecChar_encChar : ∀ n < 64, b64DecChar (b64EncChar n) = some n := by decide

theorem b64EncChar_ne_pad : ∀ n < 64, ¬(b64EncChar n = '=') := by decide

def b64EncodeBytes : List Nat → List Char
  | [] => []
  | [a] => [b64EncChar (a / 4), b64EncChar (a % 4 * 16), '=', '=']
  | [a, b] => [b64EncChar (a / 4), b64EncChar (a % 4 * 16 + b / 16), b64EncChar (b % 16 * 4), '=']
  | a :: b :: c :: rest =>
      b64EncChar (a / 4) :: b64EncChar (a % 4 * 16 + b / 16) ::
      b64EncChar (b % 16 * 4 + c / 64) :: b64EncChar (c % 64) :: b64EncodeBytes rest

def b64DecodeTail (c1 c2 c3 c4 : Char) : Option (List Nat) :=
  if c3 = '=' then
    if c4 = '=' then
      match b64DecChar c1, b64DecChar c2 with
      | some n1, some n2 => some [n1 * 4 + n2 / 16]
      | _, _ => none
    else none
  else if c4 = '=' then
    match b64DecChar c1, b64DecChar c2, b64DecChar c3 with
    | some n1, some n2, some n3 => some [n1 * 4 + n2 / 16, n2 % 16 * 16 + n3 / 4]
    | _, _, _ => none
  else none

def b64DecodeBytes : List Char → Option (List Nat)
  | [] => some []
  | c1 :: c2 :: c3 :: c4 :: rest =>
    if c3 = '=' ∨ c4 = '=' then
      if rest = [] then b64DecodeTail c1 c2 c3 c4 else none
    else
      match b64DecChar c1, b64DecChar c2, b64DecChar c3, b64DecChar c4, b64DecodeBytes rest with
      | some n1, some n2, some n3, some n4, some tl =>
          some ((n1 * 4 + n2 / 16) :: (n2 % 16 * 16 + n3 / 4) :: (n3 % 4 * 64 + n4) :: tl)
      | _, _, _, _, _ => none
  | _ => none

theorem b64_roundtrip : ∀ bs : List Nat, (∀ x ∈ bs, x < 256) →
    b64DecodeBytes (b64EncodeBytes bs) = some bs
  | [], _ => by simp [b64EncodeBytes, b64DecodeBytes]
  | [a], h => by
    have ha : a < 256 := h a (by simp)
    have e1 := b64DecChar_encChar (a / 4) (by omega)
    have e2 := b64DecChar_encChar (a % 4 * 16) (by omega)
    simp [b64EncodeBytes, b64DecodeBytes, b64DecodeTail, e1, e2]
    omega
  | [a, b], h => by
    have ha : a < 256 := h a (by simp)
    have hb : b < 256 := h b (by simp)
    have e1 := b64DecChar_encChar (a / 4) (by omega)
    have e2 := b64DecChar_encChar (a % 4 * 16 + b / 16) (by omega)
    have e3 := b64DecChar_encChar (b % 16 * 4) (by omega)
    have ne3 := b64EncChar_ne_pad (b % 16 * 4) (by omega)
    simp [b64EncodeBytes, b64DecodeBytes, b64DecodeTail, e1, e2, e3, ne3]
    omega
  | [a, b, c], h => by
    have ha : a < 256 := h a (by simp)
    have hb : b < 256 := h b (by simp)
    have hc : c < 256 := h c (by simp)
    have e1 := b64DecChar_encChar (a / 4) (by omega)
    have e2 := b64DecChar_encChar (a % 4 * 16 + b / 16) (by omega)
    have e3 := b64DecChar_encChar (b % 16 * 4 + c / 64) (by omega)
    have e4 := b64DecChar_encChar (c % 64) (by omega)
    have ne3 := b64EncChar_ne_pad (b % 16 * 4 + c / 64) (by omega)
    have ne4 := b64EncChar_ne_pad (c % 64) (by omega)
    simp [b64EncodeBytes, b64DecodeBytes, ne3, ne4, e1, e2, e3, e4]
    omega
  | a :: b :: c :: d :: rest, h => by
    have ha : a < 256 := h a (by simp)
    have hb : b < 256 := h b (by simp)
    have hc : c < 256 := h c (by simp)
    have e1 := b64DecChar_encChar (a / 4) (by omega)
    have e2 := b64DecChar_encChar (a % 4 * 16 + b / 16) (by omega)
    have e3 := b64DecChar_encChar (b % 16 * 4 + c / 64) (by omega)
    have e4 := b64DecChar_encChar (c % 64) (by omega)
    have ne3 := b64EncChar_ne_pad (b % 16 * 4 + c / 64) (by omega)
    have ne4 := b64EncChar_ne_pad (c % 64) (by omega)
    have ih := b64_roundtrip (d :: rest) (fun x hx => h x (by simp at hx ⊢; tauto))
    simp [b64EncodeBytes, b64DecodeBytes, ne3, ne4, e1, e2, e3, e4, ih]
    omega

/-- Result of running a Python handler fragment: either a value, or an
exception of the named class escaping uncaught. -/
inductive PyResult (α : Type) where
  | ok (val : α)
  | raised (exc : String)
deriving DecidableEq, Repr

/-- `s.encode("ascii")` viewed as the byte list of a string (valid when
every character is below 128, which the theorems hypothesise). -/
def strBytes (s : String) : List Nat := s.data.map Char.toNat

/-- `bytes.decode("ascii")` back to a string. -/
def bytesStr (bs : List Nat) : String := String.mk (bs.map Char.ofNat)

theorem bytesStr_strBytes (s : String) : bytesStr (strBytes s) = s := by
  simp [bytesStr, strBytes, List.map_map, Function.comp_def, Char.ofNat_toNat]

theorem strBytes_lt_256 (s : String) (h : ∀ c ∈ s.data, c.toNat < 128) :
    ∀ x ∈ strBytes s, x < 256 := by
  intro x hx
  simp [strBytes] at hx
  obtain ⟨c, hc, rfl⟩ := hx
  have := h c hc
  omega

/-- `data.split(":", 1)`: `none` models the `ValueError` that unpacking a
colon-free result into `(key, ref)` raises. -/
def split_colon_once : List Char → Option (List Char × List Char)
  | [] => none
  | c :: rest =>
    if c = ':' then some ([], rest)
    else match split_colon_once rest with
      | none => none
      | some (a, b) => some (c :: a, b)

theorem split_colon_once_append (u v : List Char) (h : ':' ∉ u) :
    split_colon_once (u ++ ':' :: v) = some (u, v) := by
  induction u with
  | nil => simp [split_colon_once]
  | cons c cs ih =>
    have hc : ¬(c = ':') := fun hc => h (by simp [hc])
    have hcs : ':' ∉ cs := fun hm => h (by simp [hm])
    simp [split_colon_once, hc, ih hcs]

/-- The cookie value minted by `set_cookie("idpauthn", "/", uid, authn_ref)`:
`data = ":".join(args)`, ascii-encoded and then base64-encoded
(`base64.b64encode(data)`), stored as the `idpauthn` morsel value. -/
def set_cookie_value (uid authn_ref : String) : String :=
  String.mk (b64EncodeBytes (strBytes (uid ++ ":" ++ authn_ref)))

/-- `SimpleCookie(kaka).get(name, None)`: the cookie header parsed as a
name/value jar, with morsel lookup. -/
def cookie_morsel (jar : List (String × String)) (name : String) : Option String :=
  (jar.find? (fun p => p.1 == name)).map Prod.snd

/-- `info_from_cookie(kaka)` from `idp.py`: absent header or absent
`idpauthn` morsel yield `(None, None)`; otherwise the morsel value is
base64-decoded (`binascii.Error` escapes: only `KeyError` and `TypeError`
are caught), ascii-decoded (`UnicodeDecodeError` escapes), split on the
first `":"` (a colon-free payload makes the tuple unpacking raise
`ValueError`, which escapes), and the session key is resolved through
`IDP.cache.uid2user` (a miss raises `KeyError`, which IS caught and
yields `(None, None)`).  Note the first component of the result is the
USER the session key maps to, not the session key itself. -/
def info_from_cookie (cache : Cache) (kaka : Option (List (String × String))) :
    PyResult (Option String × Option String) :=
  match kaka with
  | none => .ok (none, none)
  | some jar =>
    match cookie_morsel jar "idpauthn" with
    | none => .ok (none, none)
    | some v =>
      match b64DecodeBytes v.data with
      | none => .raised "binascii.Error"
      | some bs =>
        if bs.all (fun b => b < 128) then
          match split_colon_once (bs.map Char.ofNat) with
          | none => .raised "ValueError"
          | some (key, ref) =>
            match cache.uid2user (String.mk key) with
            | some user => .ok (some user, some (String.mk ref))
            | none => .ok (none, none)
        else .raised "UnicodeDecodeError"

theorem String_mk_data (s : String) : String.mk s.data = s := rfl

theorem ascii_join_colon (s r : String) (hsa : ∀ c ∈ s.data, c.toNat < 128)
    (hra : ∀ c ∈ r.data, c.toNat < 128) :
    ∀ c ∈ (s ++ ":" ++ r).data, c.toNat < 128 := by
  rw [String.data_append, String.data_append]
  intro c hc
  rcases List.mem_append.1 hc with h | h
  · rcases List.mem_append.1 h with h' | h'
    · exact hsa c h'
    · have hcc : c = ':' := by simpa using h'
      subst hcc; decide
  · exact hra c h

/-- Helper: what `info_from_cookie` returns on a cookie produced by
`set_cookie` for an ascii, colon-free session identifier: the user the
session resolves to (not the session identifier), or `(None, None)` on a
cache miss. -/
theorem info_from_cookie_encode_eq (cache : Cache) (s r : String)
    (hs : ':' ∉ s.data)
    (hsa : ∀ c ∈ s.data, c.toNat < 128)
    (hra : ∀ c ∈ r.data, c.toNat < 128) :
    info_from_cookie cache (some [("idpauthn", set_cookie_value s r)]) =
      .ok (match cache.uid2user s with
           | some user => (some user, some r)
           | none => (none, none)) := by
  have hdata : (s ++ ":" ++ r).data = s.data ++ ':' :: r.data := by
    rw [String.data_append, String.data_append]
    show s.data ++ [':'] ++ r.data = _
    simp
  have hascii := ascii_join_colon s r hsa hra
  have hall : ∀ x ∈ strBytes (s ++ ":" ++ r), x < 256 := strBytes_lt_256 _ hascii
  have hrt := b64_roundtrip _ hall
  have h128 : (strBytes (s ++ ":" ++ r)).all (fun b => b < 128) = true := by
    rw [List.all_eq_true]
    intro x hx
    simp only [strBytes, List.mem_map] at hx
    obtain ⟨c, hc, rfl⟩ := hx
    simpa using hascii c hc
  have hmap : (strBytes (s ++ ":" ++ r)).map Char.ofNat = s.data ++ ':' :: r.data := by
    have h2 := congrArg String.data (bytesStr_strBytes (s ++ ":" ++ r))
    simpa [bytesStr, hdata] using h2
  have hsplit := split_colon_once_append s.data r.data hs
  simp [info_from_cookie, cookie_morsel, set_cookie_value, hrt, h128, hmap, hsplit,
    String_mk_data]
  cases cache.uid2user s <;> simp

/-- Claim C3 (amended): decoding the cookie value produced by encoding
the pair `(sessionID, authnContextRef)` does not return that pair: it
returns the USER registered under the session identifier in
`IDP.cache.uid2user` (paired with the context reference) when the
session is live, and `(None, None)` when the session identifier is
unknown; a missing cookie also decodes leniently to `(None, None)`.  A
malformed cookie value, however, is not lenient: a value whose decoded
payload lacks the `":"` separator (such as `"YWJj"`, base64 of `"abc"`)
makes the tuple unpacking raise an uncaught `ValueError` (only
`KeyError` and `TypeError` are caught). -/
theorem cookie_decode_of_encode (cache : Cache) (s r : String)
    (hs : ':' ∉ s.data)
    (hsa : ∀ c ∈ s.data, c.toNat < 128)
    (hra : ∀ c ∈ r.data, c.toNat < 128) :
    (info_from_cookie cache (some [("idpauthn", set_cookie_value s r)]) =
      .ok (match cache.uid2user s with
           | some user => (some user, some r)
           | none => (none, none))) ∧
    info_from_cookie cache none = .ok (none, none) ∧
    info_from_cookie cache (some [("idpauthn", "YWJj")]) = .raised "ValueError" :=
  ⟨info_from_cookie_encode_eq cache s r hs hsa hra, rfl, rfl⟩

/-- Witness for the amended C3 at concrete inputs: session "s1" is live
and owned by "alice"; the cookie for ("s1", "r") decodes to
("alice", "r"). -/
theorem cookie_decode_of_encode_witness :
    (info_from_cookie ⟨StrMap.empty, StrMap.empty.insert "s1" "alice"⟩
        (some [("idpauthn", set_cookie_value "s1" "r")]) = .ok (some "alice", some "r")) ∧
    info_from_cookie ⟨StrMap.empty, StrMap.empty.insert "s1" "alice"⟩ none = .ok (none, none) ∧
    info_from_cookie ⟨StrMap.empty, StrMap.empty.insert "s1" "alice"⟩
        (some [("idpauthn", "YWJj")]) = .raised "ValueError" :=
  cookie_decode_of_encode ⟨StrMap.empty, StrMap.empty.insert "s1" "alice"⟩ "s1" "r"
    (by decide) (by decide) (by decide)

/-- Counterexample to Claim C3 as stated: with the valid pair
`("s1", "r")` and session "s1" live (registered to user "alice"),
decoding the encoded cookie returns `("alice", "r")`, not the pair
`("s1", "r")` itself; and the malformed cookie value "YWJj" raises an
uncaught `ValueError` instead of decoding to (absent, absent). -/
theorem cookie_roundtrip_counterexample :
    (info_from_cookie ⟨StrMap.empty, StrMap.empty.insert "s1" "alice"⟩
        (some [("idpauthn", set_cookie_value "s1" "r")]) = .ok (some "alice", some "r")) ∧
    ¬(info_from_cookie ⟨StrMap.empty, StrMap.empty.insert "s1" "alice"⟩
        (some [("idpauthn", set_cookie_value "s1" "r")]) = .ok (some "s1", some "r")) ∧
    ¬(info_from_cookie ⟨StrMap.empty, StrMap.empty.insert "s1" "alice"⟩
        (some [("idpauthn", "YWJj")]) = .ok (none, none)) := by
  refine ⟨by decide, by decide, by decide⟩

/-- The `AUTHN_URLS` dispatch table of `idp.py` (regex pattern, handler). -/
def AUTHN_URLS : List (String × String) := [
  ("sso/post$", "SSO.post"), ("sso/post/(.*)$", "SSO.post"),
  ("sso/redirect$", "SSO.redirect"), ("sso/redirect/(.*)$", "SSO.redirect"),
  ("sso/art$", "SSO.artifact"), ("sso/art/(.*)$", "SSO.artifact"),
  ("slo/redirect$", "SLO.redirect"), ("slo/redirect/(.*)$", "SLO.redirect"),
  ("slo/post$", "SLO.post"), ("slo/post/(.*)$", "SLO.post"),
  ("slo/soap$", "SLO.soap"), ("slo/soap/(.*)$", "SLO.soap"),
  ("airs$", "AIDR.uri"), ("ars$", "ARS.soap"),
  ("mni/post$", "NMI.post"), ("mni/post/(.*)$", "NMI.post"),
  ("mni/redirect$", "NMI.redirect"), ("mni/redirect/(.*)$", "NMI.redirect"),
  ("mni/art$", "NMI.artifact"), ("mni/art/(.*)$", "NMI.artifact"),
  ("mni/soap$", "NMI.soap"), ("mni/soap/(.*)$", "NMI.soap"),
  ("nim$", "NIM.soap"), ("nim/(.*)$", "NIM.soap"),
  ("aqs$", "AQS.soap"), ("attr$", "ATTR.soap")]

/-- The `NON_AUTHN_URLS` table: the login-verify endpoint and the ECP SSO
entry. -/
def NON_AUTHN_URLS : List (String × String) := [
  ("verify?(.*)$", "do_verify"), ("sso/ecp$", "SSO.ecp")]

/-- The per-request identity resolution of `application` (idp.py lines
1046-1066): when the `HTTP_COOKIE` header is present (truthy), the user
comes from `info_from_cookie` ALONE; only when no cookie header is
present at all is the query string consulted
(`user = IDP.cache.uid2user[query["id"][0]]`, any `KeyError` giving
`None`). -/
def application_resolve_user (cache : Cache) (kaka : Option (List (String × String)))
    (queryId : Option String) : PyResult (Option String) :=
  match kaka with
  | some jar =>
    match info_from_cookie cache (some jar) with
    | .ok (user, _) => .ok user
    | .raised e => .raised e
  | none => .ok (queryId.bind cache.uid2user)

/-- The dispatch table `application` walks: `NON_AUTHN_URLS` is prepended
to `AUTHN_URLS` when no user was resolved; the authenticated table is
still searched for anonymous users (the services themselves then divert
into the login flow). -/
def application_url_patterns (user : Option String) : List (String × String) :=
  match user with
  | none => NON_AUTHN_URLS ++ AUTHN_URLS
  | some _ => AUTHN_URLS

/-- Counterexample to Claim C6 as stated: a request whose cookie header
is present but carries no usable `idpauthn` session (here a jar with an
unrelated cookie) and whose query string carries `id=u1` with "u1" a
live Session Cache entry for "alice" is resolved as ANONYMOUS: the
query-string fallback is never consulted when a cookie header is
present, contradicting the claimed "otherwise, if the query string
carries a user reference that still resolves, that identity is used". -/
theorem application_identity_precedence_counterexample :
    (application_resolve_user ⟨StrMap.empty, StrMap.empty.insert "u1" "alice"⟩
        (some [("other", "1")]) (some "u1") = .ok none) ∧
    ((⟨StrMap.empty, StrMap.empty.insert "u1" "alice"⟩ : Cache).uid2user "u1" = some "alice") ∧
    (application_resolve_user ⟨StrMap.empty, StrMap.empty.insert "u1" "alice"⟩
        none (some "u1") = .ok (some "alice")) := by
  refine ⟨by decide, by decide, by decide⟩

/-- Claim C6 (amended): identity resolution is keyed on the presence of
the cookie HEADER, not on whether the cookie resolves: when a cookie
header is present the identity comes from the cookie alone (a live
session cookie resolves to its user; a jar without a usable `idpauthn`
morsel leaves the user anonymous no matter what the query string says);
the query-string `id` reference is consulted only when no cookie header
is present at all; when no user is resolved, the unauthenticated table
is prepended to (not substituted for) the authenticated table. -/
theorem application_identity_precedence (cache : Cache) (s r u i : String)
    (jar : List (String × String)) (qid : Option String)
    (hs : ':' ∉ s.data)
    (hsa : ∀ c ∈ s.data, c.toNat < 128)
    (hra : ∀ c ∈ r.data, c.toNat < 128)
    (hlive : cache.uid2user s = some u)
    (hnm : cookie_morsel jar "idpauthn" = none) :
    (application_resolve_user cache (some [("idpauthn", set_cookie_value s r)]) qid
        = .ok (some u)) ∧
    (application_resolve_user cache (some jar) qid = .ok none) ∧
    (application_resolve_user cache none (some i) = .ok (cache.uid2user i)) ∧
    (application_url_patterns none = NON_AUTHN_URLS ++ AUTHN_URLS) ∧
    (application_url_patterns (some u) = AUTHN_URLS) := by
  refine ⟨?_, ?_, rfl, rfl, rfl⟩
  · simp [application_resolve_user, info_from_cookie_encode_eq cache s r hs hsa hra, hlive]
  · simp [application_resolve_user, info_from_cookie, hnm]

/-- Witness for the amended C6 at concrete inputs: cookie for live
session "s1" of "alice"; a jar holding only an unrelated cookie; the
query reference "u9". -/
theorem application_identity_precedence_witness :
    (application_resolve_user ⟨StrMap.empty, StrMap.empty.insert "s1" "alice"⟩
        (some [("idpauthn", set_cookie_value "s1" "r")]) (some "u9") = .ok (some "alice")) ∧
    (application_resolve_user ⟨StrMap.empty, StrMap.empty.insert "s1" "alice"⟩
        (some [("other", "1")]) (some "u9") = .ok none) ∧
    (application_resolve_user ⟨StrMap.empty, StrMap.empty.insert "s1" "alice"⟩
        none (some "u9")
        = .ok ((⟨StrMap.empty, StrMap.empty.insert "s1" "alice"⟩ : Cache).uid2user "u9")) ∧
    (application_url_patterns none = NON_AUTHN_URLS ++ AUTHN_URLS) ∧
    (application_url_patterns (some "alice") = AUTHN_URLS) :=
  application_identity_precedence ⟨StrMap.empty, StrMap.empty.insert "s1" "alice"⟩
    "s1" "r" "alice" "u9" [("other", "1")] (some "u9")
    (by decide) (by decide) (by decide) (by decide) (by decide)

/-- The result of `SLO.do`: the HTTP outcome, the Session Cache after the
request, and whether the downstream
`IDP.session_db.remove_authn_statements(msg.name_id)` call was
attempted. -/
structure SLOResult where
  outcome : Outcome
  cache : Cache
  removeAttempted : Bool

/-- `SLO.do` of `idp.py` around the session removal (lines 653-681).
External codec calls are parameters: `parseResult` is the outcome of
`IDP.parse_logout_request` (`.raised` there is caught and mapped to
BadRequest; `.ok` carries `msg.name_id`, `none` when the message has no
name identifier), `findLocalId` is `IDP.ident.find_local_id`,
`removeRaisesKeyError` says whether `remove_authn_statements` raises
`KeyError` (nothing to remove), and `rest` is the outcome of the
remaining response-construction tail (lines 682-716, all external codec
work). -/
def SLO_do (parseResult : PyResult (Option String)) (findLocalId : String → Option String)
    (removeRaisesKeyError : Bool) (rest : Outcome) (cache : Cache) : SLOResult :=
  match parseResult with
  | .raised e => ⟨.badRequest e, cache, false⟩
  | .ok none => ⟨rest, cache, false⟩
  | .ok (some nid) =>
    let lid := findLocalId nid
    let cache' := slo_cache_remove cache lid
    if removeRaisesKeyError then ⟨.serviceError "Unknown session", cache', true⟩
    else ⟨rest, cache', true⟩

/-- Counterexample to Claim C5 as stated: an SLO request whose name
identifier has no matching Session Cache entry, and whose downstream
statement removal also finds nothing, yields the named
"Unknown session" error — but as a `ServiceError`, whose status class is
500, contradicting the claim's "not a 500-class response".  The cache is
indeed left untouched and the downstream removal is attempted. -/
theorem slo_unknown_session_counterexample :
    ((SLO_do (.ok (some "nid")) (fun _ => some "ghost") true (.response "ok")
        ⟨StrMap.empty, StrMap.empty⟩).outcome = .serviceError "Unknown session") ∧
    ((SLO_do (.ok (some "nid")) (fun _ => some "ghost") true (.response "ok")
        ⟨StrMap.empty, StrMap.empty⟩).outcome.statusCode = 500) ∧
    ((SLO_do (.ok (some "nid")) (fun _ => some "ghost") true (.response "ok")
        ⟨StrMap.empty, StrMap.empty⟩).removeAttempted = true) ∧
    ((SLO_do (.ok (some "nid")) (fun _ => some "ghost") true (.response "ok")
        ⟨StrMap.empty, StrMap.empty⟩).cache = ⟨StrMap.empty, StrMap.empty⟩) :=
  ⟨rfl, rfl, rfl, rfl⟩

/-- Claim C5 (amended): for every SLO request whose name identifier has
no matching Session Cache entry, the service removes nothing from the
cache and still attempts the downstream authentication-statement
removal; if that removal also finds nothing (raises `KeyError`), the
service returns the named "Unknown session" error — rendered as a
`ServiceError`, i.e. a 500-class response (not a non-500 response as the
spec states). -/
theorem slo_unknown_session (cache : Cache) (nid : String)
    (findLocalId : String → Option String) (rest : Outcome)
    (hmiss : (findLocalId nid).bind cache.user2uid = none) :
    ((SLO_do (.ok (some nid)) findLocalId true rest cache).cache = cache) ∧
    ((SLO_do (.ok (some nid)) findLocalId true rest cache).removeAttempted = true) ∧
    ((SLO_do (.ok (some nid)) findLocalId true rest cache).outcome
        = .serviceError "Unknown session") ∧
    ((SLO_do (.ok (some nid)) findLocalId true rest cache).outcome.statusCode = 500) := by
  refine ⟨?_, rfl, rfl, rfl⟩
  cases hl : findLocalId nid with
  | none => simp [SLO_do, slo_cache_remove, hl]
  | some l =>
    rw [hl] at hmiss
    simp at hmiss
    simp [SLO_do, slo_cache_remove, hl, hmiss]

/-- Witness for the amended C5 at concrete inputs: empty Session Cache,
name identifier "n" resolving to unknown local id "g". -/
theorem slo_unknown_session_witness :
    ((SLO_do (.ok (some "n")) (fun _ => some "g") true (.response "x")
        ⟨StrMap.empty, StrMap.empty⟩).cache = ⟨StrMap.empty, StrMap.empty⟩) ∧
    ((SLO_do (.ok (some "n")) (fun _ => some "g") true (.response "x")
        ⟨StrMap.empty, StrMap.empty⟩).removeAttempted = true) ∧
    ((SLO_do (.ok (some "n")) (fun _ => some "g") true (.response "x")
        ⟨StrMap.empty, StrMap.empty⟩).outcome = .serviceError "Unknown session") ∧
    ((SLO_do (.ok (some "n")) (fun _ => some "g") true (.response "x")
        ⟨StrMap.empty, StrMap.empty⟩).outcome.statusCode = 500) :=
  slo_unknown_session ⟨StrMap.empty, StrMap.empty⟩ "n" (fun _ => some "g") (.response "x") rfl


/-- Python `str.startswith`, on the character lists (the core library
string functions operate on byte positions and are replaced here by
kernel-reducible list recursions). -/
def isPrefixListChar : List Char → List Char → Bool
  | [], _ => true
  | _ :: _, [] => false
  | a :: as, b :: bs => a == b && isPrefixListChar as bs

def str_startswith (s pre : String) : Bool := isPrefixListChar pre.data s.data

/-- Python `str.endswith`. -/
def str_endswith (s suf : String) : Bool :=
  isPrefixListChar suf.data.reverse s.data.reverse

/-- `PATH_INFO.lstrip("/")`. -/
def lstripSlash (s : String) : String := String.mk (s.data.dropWhile (· = '/'))

/-- `str.split("/")`, keeping empty segments. -/
def splitSlash : List Char → List (List Char)
  | [] => [[]]
  | c :: rest =>
    let r := splitSlash rest
    if c = '/' then [] :: r
    else match r with
      | [] => [[c]]
      | seg :: rest' => (c :: seg) :: rest'

/-- `"/".join(segs)`. -/
def joinSlash : List (List Char) → List Char
  | [] => []
  | [s] => s
  | s :: rest => s ++ '/' :: joinSlash rest

/-- Lexical segment resolution behind `os.path.realpath` (symlink-free
filesystem): empty and `.` segments are dropped, `..` pops the previous
segment (staying at the root when there is none).  The accumulator holds
the resolved segments in reverse. -/
def resolveSegs : List (List Char) → List (List Char) → List (List Char)
  | acc, [] => acc.reverse
  | acc, seg :: rest =>
    if seg = [] ∨ seg = ['.'] then resolveSegs acc rest
    else if seg = ['.', '.'] then resolveSegs acc.tail rest
    else resolveSegs (seg :: acc) rest

/-- `os.path.realpath` on an absolute path (no symlinks). -/
def realpathStr (s : String) : String :=
  String.mk ('/' :: joinSlash (resolveSegs [] (splitSlash s.data)))

/-- Whether `p` denotes a file outside the directory root `root`
(it is neither the root itself nor below `root ++ "/"`). -/
def path_outside_root (root p : String) : Bool :=
  !(p == root || str_startswith p (root ++ "/"))

/-- `staticfile(environ, start_response)` from `idp.py`: the configured
root `args.path` (falling back to the module directory when unset/empty)
is joined with the slash-stripped `PATH_INFO`, canonicalized with
`os.path.realpath`, and then gated by the plain string test
`path.startswith(args.path)`; failure yields `Unauthorized()` (401)
before any read.  `readOk` abstracts whether `open(path).read()`
succeeds; when it throws, the `except` handler itself evaluates
`ex.message`, which does not exist in Python 3, so an `AttributeError`
escapes (the `not_found` fallback is unreachable). -/
def staticfile (argsPath dirnameFallback pathInfo : String)
    (readOk : String → Bool) : Outcome :=
  let path0 := if argsPath.length = 0 then dirnameFallback else argsPath
  let path1 := if str_endswith path0 "/" then path0 else path0 ++ "/"
  let path2 := path1 ++ lstripSlash pathInfo
  let rp := realpathStr path2
  if str_startswith rp argsPath then
    if readOk rp then .response ("file:" ++ rp) else .uncaught "AttributeError"
  else .unauthorized ""

/-- Counterexample to Claim C8 as stated: with configured root `/a/b`,
the request path `static/../../bb/secret` canonicalizes to
`/a/bb/secret`, which lies OUTSIDE the root `/a/b` (it is in the sibling
directory `/a/bb`), yet the string-prefix gate accepts it and the file
is served — the claim that every path resolving outside the root is
rejected before bytes are returned is false. -/
theorem staticfile_traversal_counterexample :
    (staticfile "/a/b" "/x" "static/../../bb/secret" (fun _ => true)
        = .response "file:/a/bb/secret") ∧
    (realpathStr "/a/b/static/../../bb/secret" = "/a/bb/secret") ∧
    (path_outside_root "/a/b" "/a/bb/secret" = true) := by
  refine ⟨by decide, by decide, by decide⟩

/-- Claim C8 (amended): the requested path is canonicalized and rejected
with `Unauthorized` (401) exactly when the canonical path fails the
plain string-prefix test against the configured root — rejection happens
before any file read (the result is `Unauthorized` for every `readOk`).
Because the test is a string prefix rather than a directory-boundary
check, a `../` path resolving into a sibling directory whose absolute
name extends the root string (e.g. root `/a/b`, file `/a/bb/x`) passes
the gate and is served. -/
theorem staticfile_prefix_gate (root fallback info : String) (readOk : String → Bool)
    (hroot : ¬ root.length = 0) :
    staticfile root fallback info readOk = .unauthorized "" ↔
    str_startswith (realpathStr ((if str_endswith root "/" then root else root ++ "/")
        ++ lstripSlash info)) root = false := by
  simp only [staticfile]
  rw [if_neg hroot]
  cases hsw : str_startswith (realpathStr ((if str_endswith root "/" then root
      else root ++ "/") ++ lstripSlash info)) root
  · simp [hsw]
  · simp only [hsw, if_true]
    cases hr : readOk (realpathStr ((if str_endswith root "/" then root
        else root ++ "/") ++ lstripSlash info)) <;> simp [hr]

/-- Witness for the amended C8 at concrete inputs: root `/a`, request
`static/../../etc/x` canonicalizing to `/etc/x`, which fails the prefix
test and is rejected with 401. -/
theorem staticfile_prefix_gate_witness :
    staticfile "/a" "/x" "static/../../etc/x" (fun _ => true) = .unauthorized "" ↔
    str_startswith (realpathStr ((if str_endswith "/a" "/" then "/a" else "/a" ++ "/")
        ++ lstripSlash "static/../../etc/x")) "/a" = false :=
  staticfile_prefix_gate "/a" "/x" "static/../../etc/x" (fun _ => true) (by decide)

/-- The username/password table `PASSWD` of `idp.py`. -/
def PASSWD : StrMap String :=
  ((((((StrMap.empty.insert "testuser" "qwerty").insert "roland" "dianakra").insert
      "babs" "howes").insert "upper" "crust").insert "testuser2" "abcd1234").insert
      "testuser3" "ABCD1234")

/-- `authz_info[6:]`. -/
def str_drop (s : String) (n : Nat) : String := String.mk (s.data.drop n)

/-- The access-control part of `SSO.ecp` from `idp.py` (lines 499-526),
returning `some resp` when a response short-circuits the SSO operation
and `none` when control would fall through to the SSO operation.  A
missing `HTTP_AUTHORIZATION` header raises `KeyError`, caught →
`Unauthorized()`; a non-Basic scheme → `Unauthorized()`.  For a Basic
header, `base64.b64decode` yields BYTES in Python 3 (a failure raises
`binascii.Error`, which the `except TypeError` clause does not catch),
and then `_info.split(":")` calls `bytes.split` with a `str` separator,
which ALWAYS raises `TypeError` — caught by neither the inner
`except ValueError` nor anything else — so every Basic request, with
correct credentials or not, escapes as an uncaught exception, and the
`is_equal(PASSWD[user], passwd)` check (itself inverted: a match would
set `resp = Unauthorized()`) is never reached. -/
def SSO_ecp_authz (authzHeader : Option String) : Option Outcome :=
  match authzHeader with
  | none => some (.unauthorized "")
  | some a =>
    if str_startswith a "Basic " then
      match b64DecodeBytes (str_drop a 6).data with
      | none => some (.uncaught "binascii.Error")
      | some _ => some (.uncaught "TypeError")
    else some (.unauthorized "")

/-- Claim C9 is refuted by the code (code bug): an absent or non-Basic
Authorization header does get `Unauthorized`, but a Basic header with
the CORRECT credentials of the password store
(`testuser:qwerty`, i.e. `Basic dGVzdHVzZXI6cXdlcnR5`) raises an
uncaught `TypeError` (Python 3 `bytes.split` with a `str` separator)
instead of proceeding as the authenticated user; no Basic request can
ever reach the SSO operation. -/
theorem ecp_basic_auth_code_bug :
    (SSO_ecp_authz none = some (.unauthorized "")) ∧
    (SSO_ecp_authz (some "Digest abc") = some (.unauthorized "")) ∧
    (String.mk (b64EncodeBytes (strBytes "testuser:qwerty")) = "dGVzdHVzZXI6cXdlcnR5") ∧
    (PASSWD "testuser" = some "qwerty") ∧
    (SSO_ecp_authz (some "Basic dGVzdHVzZXI6cXdlcnR5") = some (.uncaught "TypeError")) := by
  refine ⟨by decide, by decide, by decide, by decide, by decide⟩

/-!
SHA-1 (`hashlib.sha1(...).hexdigest()`), used by `SSO._store_request` to
derive the Ticket Store key from the raw encoded request.  Words are
`Nat` values reduced modulo `2 ^ 32`.
-/

def w32 (n : Nat) : Nat := n % 4294967296

def rotl32 (b n : Nat) : Nat := w32 (n * 2 ^ b + n / 2 ^ (32 - b))

/-- `k` bytes of `n`, big-endian. -/
def toBytesBE : Nat → Nat → List Nat
  | 0, _ => []
  | k + 1, n => toBytesBE k (n / 256) ++ [n % 256]

/-- Groups of four bytes to big-endian 32-bit words. -/
def toWordsBE : List Nat → List Nat
  | b1 :: b2 :: b3 :: b4 :: rest =>
      (((b1 * 256 + b2) * 256 + b3) * 256 + b4) :: toWordsBE rest
  | _ => []

/-- Merkle-Damgard padding: `0x80`, zeros to 56 mod 64, and the 64-bit
big-endian bit length. -/
def sha1Pad (msg : List Nat) : List Nat :=
  msg ++ 128 :: (List.replicate ((119 - msg.length % 64) % 64) 0 ++ toBytesBE 8 (8 * msg.length))

/-- Extend the 16 block words to 80 schedule words. -/
def sha1Extend (ws : List Nat) : List Nat :=
  if h : ws.length ≥ 80 then ws
  else
    sha1Extend (ws ++ [rotl32 1 (Nat.xor
      (Nat.xor (ws.getD (ws.length - 3) 0) (ws.getD (ws.length - 8) 0))
      (Nat.xor (ws.getD (ws.length - 14) 0) (ws.getD (ws.length - 16) 0)))])
termination_by 80 - ws.length
decreasing_by simp only [List.length_append, List.length_cons, List.length_nil]; omega

def sha1F (i b c d : Nat) : Nat :=
  if i < 20 then Nat.lor (Nat.land b c) (Nat.land (4294967295 - b) d)
  else if i < 40 then Nat.xor (Nat.xor b c) d
  else if i < 60 then Nat.lor (Nat.lor (Nat.land b c) (Nat.land b d)) (Nat.land c d)
  else Nat.xor (Nat.xor b c) d

def sha1K (i : Nat) : Nat :=
  if i < 20 then 1518500249 else if i < 40 then 1859775393
  else if i < 60 then 2400959708 else 3395469782

def sha1Step (ws : List Nat) (st : Nat × Nat × Nat × Nat × Nat) (i : Nat) :
    Nat × Nat × Nat × Nat × Nat :=
  let (a, b, c, d, e) := st
  (w32 (rotl32 5 a + sha1F i b c d + e + sha1K i + ws.getD i 0), a, rotl32 30 b, c, d)

def sha1Compress (h : Nat × Nat × Nat × Nat × Nat) (block : List Nat) :
    Nat × Nat × Nat × Nat × Nat :=
  let ws := sha1Extend (toWordsBE block)
  let (h0, h1, h2, h3, h4) := h
  let (a, b, c, d, e) := (List.range 80).foldl (sha1Step ws) (h0, h1, h2, h3, h4)
  (w32 (h0 + a), w32 (h1 + b), w32 (h2 + c), w32 (h3 + d), w32 (h4 + e))

def chunks64 (l : List Nat) : List (List Nat) :=
  if h : l = [] then [] else l.take 64 :: chunks64 (l.drop 64)
termination_by l.length
decreasing_by
  simp only [List.length_drop]
  cases l with
  | nil => exact absurd rfl h
  | cons a as => simp; omega

def sha1Digest (msg : List Nat) : List Nat :=
  let st := (chunks64 (sha1Pad msg)).foldl sha1Compress
    (1732584193, 4023233417, 2562383102, 271733878, 3285377520)
  let (h0, h1, h2, h3, h4) := st
  toBytesBE 4 h0 ++ toBytesBE 4 h1 ++ toBytesBE 4 h2 ++ toBytesBE 4 h3 ++ toBytesBE 4 h4

def hexChar (n : Nat) : Char := "0123456789abcdef".data.getD n '?'

def bytesToHex (bs : List Nat) : List Char :=
  bs.foldr (fun b acc => hexChar (b / 16) :: hexChar (b % 16) :: acc) []

/-- `sha1(s.encode()).hexdigest()` (for the ascii request strings at
hand, `str.encode()` is the codepoint byte list). -/
def sha1Hex (s : String) : String := String.mk (bytesToHex (sha1Digest (strBytes s)))

/-!
The Request Envelope and the SSO service.
-/

/-- The parsed authentication request (`req_info.message`), keeping the
fields `SSO.redirect` reads: `issuer.text`, `force_authn`, and the
requested authentication context (held abstract). -/
structure AuthnRequest where
  issuerText : String
  force_authn : Option String := none
deriving DecidableEq, Repr

/-- What `IDP.parse_authn_request` returns. -/
structure ReqInfo where
  message : AuthnRequest
deriving DecidableEq, Repr

/-- The Request Envelope: the decoded field dictionary (`saml_msg`),
with the fields this slice reads, plus the `req_info` slot the SSO
endpoints add before storing a ticket. -/
structure Envelope where
  SAMLRequest : Option String := none
  RelayState : Option String := none
  SigAlg : Option String := none
  Signature : Option String := none
  key : Option String := none
  req_info : Option ReqInfo := none
deriving DecidableEq, Repr

/-- `SSO._store_request(saml_msg)`: the Ticket Store key is
`sha1(saml_msg["SAMLRequest"].encode()).hexdigest()` and the envelope is
stored under it (every call site guarantees `SAMLRequest` is present;
`getD` only totalizes the model). -/
def _store_request (ticket : StrMap Envelope) (m : Envelope) : String × StrMap Envelope :=
  let key := sha1Hex (m.SAMLRequest.getD "")
  (key, ticket.insert key m)

/-- The ticket consumption performed by the SSO endpoints (idp.py lines
417-421): `saml_msg = IDP.ticket[_key]`, then
`self.req_info = saml_msg["req_info"]`, and only THEN
`del IDP.ticket[_key]`.  A missing key — or a stored envelope without a
`req_info` entry — raises `KeyError` BEFORE the delete runs, so the
store is left unchanged and the take falls through as NotFound
(`none`); only a successful resume (entry present and carrying
`req_info`) deletes the entry.  Both `_store_request` call sites set
`saml_msg["req_info"]` before storing, so every envelope actually
stored carries it. -/
def ticket_take (st : StrMap Envelope) (k : String) : Option Envelope × StrMap Envelope :=
  match st k with
  | some v =>
    match v.req_info with
    | some _ => (some v, st.erase k)
    | none => (none, st)
  | none => (none, st)

/-- Claim C2: the Ticket Store key is a deterministic hash of the raw
encoded request — two `_store_request` calls on envelopes with identical
`SAMLRequest` strings produce the same key, whatever else differs — and
a SUCCESSFUL take of a key (one that returns the stored envelope, which
requires the stored envelope to carry `req_info`, as everything stored
by `_store_request` does, since the delete only runs after the
`req_info` read succeeds) removes the entry, so a second take of the
same key yields NotFound (`none`), falling through to re-parsing. -/
theorem ticket_store_key_deterministic_take_once (m₁ m₂ : Envelope)
    (t₁ t₂ st : StrMap Envelope) (k : String) (e : Envelope)
    (hsame : m₁.SAMLRequest = m₂.SAMLRequest)
    (htaken : (ticket_take st k).1 = some e) :
    (_store_request t₁ m₁).1 = (_store_request t₂ m₂).1 ∧
    (ticket_take (ticket_take st k).2 k).1 = none := by
  constructor
  · simp [_store_request, hsame]
  · cases hst : st k with
    | none => simp [ticket_take, hst] at htaken
    | some v =>
      cases hri : v.req_info with
      | none => simp [ticket_take, hst, hri] at htaken
      | some ri => simp [ticket_take, hst, hri, StrMap.erase]

/-- Witness for C2 at concrete inputs: two envelopes sharing the raw
request "REQ" but with different relay states, and a single-entry ticket
store holding (as `SSO.redirect`/`SSO.post` always store) an envelope
with its `req_info` attached, consumed at key "k". -/
theorem ticket_store_key_deterministic_take_once_witness :
    ((_store_request StrMap.empty
        { SAMLRequest := some "REQ", RelayState := some "a" }).1 =
      (_store_request StrMap.empty
        { SAMLRequest := some "REQ", RelayState := some "b" }).1) ∧
    ((ticket_take (ticket_take (StrMap.empty.insert "k"
        { SAMLRequest := some "REQ", req_info := some ⟨⟨"sp", none⟩⟩ }) "k").2 "k").1
      = none) :=
  ticket_store_key_deterministic_take_once
    { SAMLRequest := some "REQ", RelayState := some "a" }
    { SAMLRequest := some "REQ", RelayState := some "b" }
    StrMap.empty StrMap.empty
    (StrMap.empty.insert "k" { SAMLRequest := some "REQ", req_info := some ⟨⟨"sp", none⟩⟩ })
    "k" { SAMLRequest := some "REQ", req_info := some ⟨⟨"sp", none⟩⟩ } rfl (by decide)

/-- Python `str.lower` on the character list. -/
def pyLower (s : String) : String := String.mk (s.data.map Char.toLower)

/-- `_req.force_authn is not None and _req.force_authn.lower() == "true"`. -/
def isForceAuthn (r : AuthnRequest) : Bool :=
  match r.force_authn with
  | some v => pyLower v == "true"
  | none => false

/-- Where `SSO.redirect` hands off after its own checks. -/
inductive SSOStep where
  | respond (o : Outcome)
  | operation (env : Envelope)
  | notAuthn (key : String)
deriving DecidableEq, Repr

def SSOStep.isOperation : SSOStep → Bool
  | .operation _ => true
  | _ => false

structure SSORedirectResult where
  step : SSOStep
  ticket : StrMap Envelope

/-- The tail of `SSO.redirect` after parse and signature check
(idp.py lines 449-459): `saml_msg["req_info"] = self.req_info` is set in
every branch; with a resolved user and no force-authn the envelope goes
into `self.operation` (the assertion-building path); otherwise the
envelope is stored as a ticket and the login flow begins
(`self.not_authn(key, ...)`). -/
def sso_after_verify (user : Option String) (m : Envelope) (ri : ReqInfo)
    (ticket : StrMap Envelope) : SSORedirectResult :=
  let m' := { m with req_info := some ri }
  match user with
  | some _ =>
    if isForceAuthn ri.message then
      let kt := _store_request ticket m'
      ⟨.notAuthn kt.1, kt.2⟩
    else ⟨.operation m', ticket⟩
  | none =>
    let kt := _store_request ticket m'
    ⟨.notAuthn kt.1, kt.2⟩

/-- The `except KeyError` arm of `SSO.redirect` (idp.py lines 422-459):
no usable ticket, so the raw request is parsed
(`saml_msg["SAMLRequest"]` missing raises `KeyError`, caught as
`BadRequest("Message signature verification failure")`; a falsy parse
gives `BadRequest("Message parsing failed")`), and when the envelope
carries both `SigAlg` and `Signature` the issuer's signing certificates
are fetched from trust metadata (`certsOf`) and
`verify_redirect_signature` (`verify`) is tried against each candidate,
succeeding if any one verifies and otherwise rejecting with
`BadRequest("Message signature verification failure")`. -/
def sso_redirect_fresh (parse : String → Option ReqInfo) (certsOf : String → List String)
    (verify : Envelope → String → Bool) (user : Option String)
    (m : Envelope) (ticket : StrMap Envelope) : SSORedirectResult :=
  match m.SAMLRequest with
  | none => ⟨.respond (.badRequest "Message signature verification failure"), ticket⟩
  | some q =>
    match parse q with
    | none => ⟨.respond (.badRequest "Message parsing failed"), ticket⟩
    | some ri =>
      if m.SigAlg.isSome && m.Signature.isSome then
        if (certsOf ri.message.issuerText).any (fun c => verify m c) then
          sso_after_verify user m ri ticket
        else ⟨.respond (.badRequest "Message signature verification failure"), ticket⟩
      else sso_after_verify user m ri ticket

/-- `SSO.redirect` (idp.py lines 411-461).  `saml_msg` is what
`unpack_redirect` produced (`none` when the WSGI environ has no
`QUERY_STRING`, in which case `saml_msg["key"]` raises an uncaught
`TypeError`).  A present `key` field pointing at a stored ticket resumes
that ticket: its `req_info` is adopted, the ticket is deleted, and the
envelope goes straight into `self.operation`; a `KeyError` anywhere in
that resume (key absent, ticket missing, or `req_info` missing from the
stored envelope, in which case `saml_msg` has been REBOUND to the stored
envelope and the delete has not yet run) falls into the fresh-parse
arm. -/
def SSO_redirect (parse : String → Option ReqInfo) (certsOf : String → List String)
    (verify : Envelope → String → Bool) (ticket : StrMap Envelope)
    (user : Option String) (saml_msg : Option Envelope) : SSORedirectResult :=
  match saml_msg with
  | none => ⟨.respond (.uncaught "TypeError"), ticket⟩
  | some m =>
    match m.key with
    | some k =>
      match ticket k with
      | some stored =>
        match stored.req_info with
        | some _ => ⟨.operation stored, ticket.erase k⟩
        | none => sso_redirect_fresh parse certsOf verify user stored ticket
      | none => sso_redirect_fresh parse certsOf verify user m ticket
    | none => sso_redirect_fresh parse certsOf verify user m ticket

/-- Claim C1: for every HTTP-Redirect SSO request carrying both
`Signature` and `SigAlg` (and not resuming a ticket), once the request
parses, the redirect signature is verified against each of the issuer's
signing certificates from trust metadata: the endpoint answers
`BadRequest("Message signature verification failure")` exactly when no
candidate certificate verifies; the assertion-building path
(`self.operation`) is entered only if some certificate verifies; and for
an authenticated user without forced re-authentication it is entered
exactly when some certificate verifies. -/
theorem sso_redirect_signature_gate
    (parse : String → Option ReqInfo) (certsOf : String → List String)
    (verify : Envelope → String → Bool) (ticket : StrMap Envelope)
    (user : Option String) (m : Envelope) (ri : ReqInfo) (q sig alg : String)
    (hkey : m.key = none) (hq : m.SAMLRequest = some q)
    (hsig : m.Signature = some sig) (halg : m.SigAlg = some alg)
    (hparse : parse q = some ri) :
    ((SSO_redirect parse certsOf verify ticket user (some m)).step =
        .respond (.badRequest "Message signature verification failure") ↔
      (certsOf ri.message.issuerText).any (fun c => verify m c) = false) ∧
    ((SSO_redirect parse certsOf verify ticket user (some m)).step.isOperation = true →
      (certsOf ri.message.issuerText).any (fun c => verify m c) = true) ∧
    (user.isSome = true → isForceAuthn ri.message = false →
      ((SSO_redirect parse certsOf verify ticket user (some m)).step.isOperation = true ↔
        (certsOf ri.message.issuerText).any (fun c => verify m c) = true)) := by
  simp only [SSO_redirect, hkey]
  simp only [sso_redirect_fresh, hq, hparse, hsig, halg, Option.isSome_some, Bool.and_self,
    if_true]
  cases hany : (certsOf ri.message.issuerText).any (fun c => verify m c) with
  | false => simp [hany, SSOStep.isOperation]
  | true =>
    cases user with
    | none => simp [hany, sso_after_verify, SSOStep.isOperation]
    | some u =>
      cases hforce : isForceAuthn ri.message with
      | true => simp [hany, sso_after_verify, hforce, SSOStep.isOperation]
      | false => simp [hany, sso_after_verify, hforce, SSOStep.isOperation]

/-- Witness for C1 at concrete inputs: a signed request "Q" from issuer
"sp", one candidate certificate that verifies, an authenticated user and
no forced re-authentication. -/
theorem sso_redirect_signature_gate_witness :
    (((SSO_redirect (fun _ => some ⟨⟨"sp", none⟩⟩) (fun _ => ["c"]) (fun _ _ => true)
        StrMap.empty (some "alice")
        (some { SAMLRequest := some "Q", SigAlg := some "alg",
                Signature := some "sig" })).step =
        SSOStep.respond (.badRequest "Message signature verification failure")) ↔
      ["c"].any (fun _ => true) = false) ∧
    ((SSO_redirect (fun _ => some ⟨⟨"sp", none⟩⟩) (fun _ => ["c"]) (fun _ _ => true)
        StrMap.empty (some "alice")
        (some { SAMLRequest := some "Q", SigAlg := some "alg",
                Signature := some "sig" })).step.isOperation = true →
      ["c"].any (fun _ => true) = true) ∧
    ((some "alice" : Option String).isSome = true →
      isForceAuthn (⟨⟨"sp", none⟩⟩ : ReqInfo).message = false →
      (((SSO_redirect (fun _ => some ⟨⟨"sp", none⟩⟩) (fun _ => ["c"]) (fun _ _ => true)
          StrMap.empty (some "alice")
          (some { SAMLRequest := some "Q", SigAlg := some "alg",
                  Signature := some "sig" })).step.isOperation = true) ↔
        ["c"].any (fun _ => true) = true)) :=
  sso_redirect_signature_gate (fun _ => some ⟨⟨"sp", none⟩⟩) (fun _ => ["c"])
    (fun _ _ => true) StrMap.empty (some "alice")
    { SAMLRequest := some "Q", SigAlg := some "alg", Signature := some "sig" }
    ⟨⟨"sp", none⟩⟩ "Q" "sig" "alg" rfl rfl rfl rfl rfl

/-- `Service.operation(saml_msg, binding)` (idp.py lines 170-199) up to
the handoff into `self.do`: a falsy or `SAMLRequest`-less envelope is a
`BadRequest("Error parsing request or no request")`; a `Signature`
without a `SigAlg` is a
`BadRequest("Signature Algorithm specification is missing")`; otherwise
control continues into the service's `do` (`doCont`). -/
def Service_operation (saml_msg : Option Envelope) (doCont : Envelope → Outcome) : Outcome :=
  match saml_msg with
  | none => .badRequest "Error parsing request or no request"
  | some m =>
    if m.SAMLRequest.isNone then .badRequest "Error parsing request or no request"
    else if m.Signature.isSome && m.SigAlg.isNone then
      .badRequest "Signature Algorithm specification is missing"
    else doCont m

/-- Claim C7 is right about `Service.operation` and about empty
envelopes, but the code has a bug on ABSENT envelopes in `SSO.redirect`:
`Service.operation` maps an absent or `SAMLRequest`-less envelope to a
BadRequest, and `SSO.redirect` on an empty envelope (empty query dict)
falls through `KeyError` handlers to a BadRequest — but `SSO.redirect`
on an absent envelope (a WSGI environ with no `QUERY_STRING`, so
`unpack_redirect` returns `None`) evaluates `None["key"]`, raising a
`TypeError` that no handler catches, an unhandled exception escaping to
the transport layer. -/
theorem service_operation_missing_request (doCont : Envelope → Outcome) :
    ((SSO_redirect (fun _ => none) (fun _ => []) (fun _ _ => false) StrMap.empty none
        none).step = .respond (.uncaught "TypeError")) ∧
    (Service_operation none doCont = .badRequest "Error parsing request or no request") ∧
    (Service_operation (some {}) doCont = .badRequest "Error parsing request or no request") ∧
    ((SSO_redirect (fun _ => none) (fun _ => []) (fun _ _ => false) StrMap.empty none
        (some {})).step = .respond (.badRequest "Message signature verification failure")) :=
  ⟨rfl, rfl, rfl, rfl⟩
